import Mathlib

/-!
# Verification of the Aether Drone serverless core

Shallow embedding of the request-handling core of the `global-launch-showcase`
repository: the LocationResolver (case-insensitive geolocation-header
extraction), the ThreatCounter (bounded-poll query against an external log
store), the API-gateway router / CORS shim declared in `terraform/main.tf`,
and the frontend dashboard page `src/app/page.tsx`.

The Lambda source (`handler.py`) is referenced by
`aws_lambda_function.api_handler` in `terraform/main.tf` but is not part of
the repository snapshot; those operations are modelled from the specification
(each such definition is marked `Modelled from the spec:`).
-/

namespace AetherDrone

/-! ## Strings and case-insensitive header lookup -/

/-- ASCII lower-casing of a string (header-name normalization, as performed
by a case-insensitive header lookup; header names are ASCII). -/
def lowerStr (s : String) : String := String.mk (s.data.map Char.toLower)

/-- First value bound to key `k` in an association list of headers. -/
def findHeader (hs : List (String × String)) (k : String) : Option String :=
  match hs with
  | [] => none
  | (k', v) :: rest => if k' = k then some v else findHeader rest k

/-- Lower-case every header name, keeping values (the normalized map the
spec prescribes to build once per request). -/
def normalizeHeaders (hs : List (String × String)) : List (String × String) :=
  hs.map (fun p => (lowerStr p.1, p.2))

/-- Case-insensitive header lookup: normalize names, then exact lookup on
the lower-cased key. -/
def getHeader (hs : List (String × String)) (k : String) : Option String :=
  findHeader (normalizeHeaders hs) k

/-- Split a list of characters on a delimiter character; structural
recursion so that concrete instances reduce in the kernel. -/
def splitOnCharAux (d : Char) : List Char → List Char → List (List Char)
  | [], acc => [acc.reverse]
  | x :: xs, acc =>
    if x = d then acc.reverse :: splitOnCharAux d xs []
    else splitOnCharAux d xs (x :: acc)

/-- Split a string on a delimiter character. -/
def splitOnChar (d : Char) (s : String) : List String :=
  (splitOnCharAux d s.data []).map String.mk

/-! ## LocationResolver -/

/-- The visitor-location record returned by `action=location`. -/
structure VisitorLocation where
  city : String
  region : String
  country : String
  edgeLocation : String
deriving DecidableEq, Repr

/-- Modelled from the spec: edge/POP-code extraction from the
`X-Amz-Cf-Id` trace header, missing from the repository snapshot
(`handler.py` is not under version control here). The POP code occupies
the second `-`-delimited segment of the identifier; a malformed value
(fewer than two segments) degrades to the fallback sentinel. -/
def edgeFromTraceId (t : String) : String :=
  match (splitOnChar '-' t).get? 1 with
  | some seg => seg
  | none => "Unknown"

/-- Modelled from the spec: the LocationResolver of `handler.py` (absent
from the snapshot; declared by `aws_lambda_function.api_handler`).
Case-insensitive lookup of the CloudFront geolocation headers injected by
`aws_cloudfront_function.location_headers_function`, each field falling
back to the sentinel `"Unknown"`; the edge location is parsed from the
`x-amz-cf-id` trace header. -/
def getVisitorLocation (hs : List (String × String)) : VisitorLocation :=
  { city := (getHeader hs "cloudfront-viewer-city").getD "Unknown"
    region := (getHeader hs "cloudfront-viewer-country-region").getD "Unknown"
    country := (getHeader hs "cloudfront-viewer-country").getD "Unknown"
    edgeLocation :=
      match getHeader hs "x-amz-cf-id" with
      | some t => edgeFromTraceId t
      | none => "Unknown" }

/-- The header names LocationResolver recognizes (lower-case canonical
forms). -/
def recognizedKeys : List String :=
  ["cloudfront-viewer-city", "cloudfront-viewer-country-region",
   "cloudfront-viewer-country", "x-amz-cf-id"]

/-! ## ThreatCounter -/

/-- A result row of the external log-query service: a list of
field-name/value pairs (the shape CloudWatch Logs Insights returns). -/
def Row := List (String × String)

/-- Status reported by one poll of the external asynchronous query
service. -/
inductive PollStatus where
  | complete (rows : List Row)
  | running
  | failed

/-- Modelled from the spec: the narrow interface of the external
asynchronous log-query service (submit-query / poll-for-result), injected
as a dependency. `submitOk` is whether query submission succeeds;
`poll i` is the status reported by the `i`-th poll. -/
structure QueryService where
  submitOk : Bool
  poll : Nat → PollStatus

/-- First value bound to field `f` in a result row. -/
def findField (r : Row) (f : String) : Option String :=
  match r with
  | [] => none
  | (f', v) :: rest => if f' = f then some v else findField rest f

/-- Modelled from the spec: the bounded poll loop of ThreatCounter.
`budget` attempts remain; `i` is the index of the next poll. Returns the
result rows on completion, `none` on poll-budget exhaustion or a failed
query. -/
def pollLoop (poll : Nat → PollStatus) : Nat → Nat → Option (List Row)
  | 0, _ => none
  | budget + 1, i =>
    match poll i with
    | .complete rows => some rows
    | .running => pollLoop poll budget (i + 1)
    | .failed => none

/-- Decimal parsing of a digit list, accumulator style. -/
def parseNatAux : List Char → Nat → Option Nat
  | [], acc => some acc
  | c :: cs, acc =>
    if c.isDigit then parseNatAux cs (acc * 10 + (c.toNat - 48)) else none

/-- String-to-integer coercion of the aggregate value: all-digit strings
parse to their decimal value, anything else (including the empty string)
is malformed. -/
def parseNat (s : String) : Option Nat :=
  match s.data with
  | [] => none
  | l => parseNatAux l 0

/-- Modelled from the spec: extraction of the single numeric aggregate
from a completed result set. An empty result set is the normal count 0;
otherwise the first row must carry a numeric `count` field, and any other
shape is malformed (`none`). -/
def countOfRows (rows : List Row) : Option Nat :=
  match rows with
  | [] => some 0
  | r :: _ =>
    match findField r "count" with
    | some v => parseNat v
    | none => none

/-- Result of a ThreatCounter invocation: the block count plus the
soft-fail signal (the internal flag that the true value could not be
computed). -/
structure ThreatCount where
  blockCount : Nat
  softFail : Bool
deriving DecidableEq, Repr

/-- Modelled from the spec: ThreatCounter of `handler.py` (absent from the
snapshot; declared by `aws_lambda_function.api_handler`). Submits the
fixed BLOCK-count query, polls within the budget, extracts the aggregate;
on submission error, poll-budget exhaustion, query failure or a malformed
result shape it returns `blockCount = 0` with the soft-fail signal set. -/
def threatCounter (svc : QueryService) (budget : Nat) : ThreatCount :=
  if svc.submitOk then
    match pollLoop svc.poll budget 0 with
    | some rows =>
      match countOfRows rows with
      | some n => { blockCount := n, softFail := false }
      | none => { blockCount := 0, softFail := true }
    | none => { blockCount := 0, softFail := true }
  else { blockCount := 0, softFail := true }

/-! ## Router / CORS shim (from `terraform/main.tf`) -/

/-- HTTP methods configured on the `getVisitorLocation` API resource. -/
inductive HttpMethod where
  | GET
  | OPTIONS
deriving DecidableEq, Repr

/-- Integration kinds of `terraform/main.tf`:
`aws_api_gateway_integration.lambda_integration` is `AWS_PROXY`,
`aws_api_gateway_integration.options_integration` is `MOCK`. -/
inductive IntegrationKind where
  | AWS_PROXY
  | MOCK
deriving DecidableEq, Repr

/-- The integration API Gateway selects for each configured method
(`aws_api_gateway_integration.lambda_integration` for GET,
`aws_api_gateway_integration.options_integration` for OPTIONS). -/
def integrationFor : HttpMethod → IntegrationKind
  | .GET => .AWS_PROXY
  | .OPTIONS => .MOCK

/-- The CORS response headers attached to a response. -/
structure CorsHeaders where
  allowHeaders : String
  allowMethods : String
  allowOrigin : String
deriving DecidableEq, Repr

/-- The static CORS header values of
`aws_api_gateway_integration_response.options_integration_response`. -/
def optionsCorsHeaders : CorsHeaders :=
  { allowHeaders := "Content-Type,X-Amz-Date,Authorization,X-Api-Key,X-Amz-Security-Token"
    allowMethods := "GET,OPTIONS"
    allowOrigin := "*" }

/-- Which resolver a request dispatch ends up invoking. -/
inductive Invoked where
  | noResolver
  | locationResolver
  | threatCounterOp
deriving DecidableEq, Repr

/-- Response bodies of the API surface. -/
inductive Body where
  | emptyBody
  | locationBody (v : VisitorLocation)
  | wafBody (blockCount : Nat) (softFail : Bool)
  | undefinedBody
deriving DecidableEq, Repr

/-- An API response: status code, CORS headers, which resolver ran, and
the body. -/
structure ApiResponse where
  statusCode : Nat
  cors : CorsHeaders
  invoked : Invoked
  body : Body
deriving DecidableEq, Repr

/-- Modelled from the spec: the routing entry point of `handler.py`
(absent from the snapshot). Dispatches on the `action` query parameter:
`location` invokes LocationResolver, `waf` invokes ThreatCounter (both
answered with status 200 and the CORS header set); any other value, or a
missing parameter, falls through with an undefined result shape. -/
def lambdaRouter (query : List (String × String)) (hs : List (String × String))
    (svc : QueryService) (budget : Nat) : ApiResponse :=
  match findHeader query "action" with
  | some "location" =>
    { statusCode := 200, cors := optionsCorsHeaders, invoked := .locationResolver
      body := .locationBody (getVisitorLocation hs) }
  | some "waf" =>
    let tc := threatCounter svc budget
    { statusCode := 200, cors := optionsCorsHeaders, invoked := .threatCounterOp
      body := .wafBody tc.blockCount tc.softFail }
  | _ =>
    { statusCode := 200, cors := optionsCorsHeaders, invoked := .noResolver
      body := .undefinedBody }

/-- The API Gateway dispatch declared in `terraform/main.tf`: OPTIONS is
served by the MOCK integration (`options_integration`), which answers 200
with the static CORS headers of `options_integration_response` and never
reaches the Lambda; GET is proxied to the Lambda router
(`lambda_integration`, type `AWS_PROXY`). -/
def apiGateway (m : HttpMethod) (query : List (String × String))
    (hs : List (String × String)) (svc : QueryService) (budget : Nat) : ApiResponse :=
  match m with
  | .OPTIONS =>
    { statusCode := 200, cors := optionsCorsHeaders, invoked := .noResolver
      body := .emptyBody }
  | .GET => lambdaRouter query hs svc budget

/-! ## Frontend dashboard page (`src/app/page.tsx`) -/

/-- Does `needle` occur as a contiguous sublist of `hay`? (the
`String.includes` check of the page's effect). -/
def containsSub (hay needle : List Char) : Bool :=
  match hay with
  | [] => needle.isEmpty
  | _ :: t => needle.isPrefixOf hay || containsSub t needle

/-- The API endpoint URL hard-coded in `page.tsx`. -/
def apiUrl : String :=
  "https://u1v9pb60g4.execute-api.us-east-2.amazonaws.com/default/getVisitorLocation"

/-- The `useState` trio of the `Home` component. -/
structure PageState where
  location : String
  edgeLocation : String
  threats : String
deriving DecidableEq, Repr

/-- The initial state of the `Home` component: every panel shows the
placeholder. -/
def initialPageState : PageState :=
  { location := "...", edgeLocation := "...", threats := "..." }

/-- Outcome of the page's single fetch: a rejection (network error or
JSON-parse error), or a parsed JSON object with its optional fields. -/
inductive FetchOutcome where
  | fetchError
  | ok (city country edgeLocation : Option String)

/-- The placeholder guard of the effect: the URL is unconfigured when it
still contains the paste-here marker or is empty. -/
def apiUrlNotConfigured : Bool :=
  containsSub apiUrl.data "PASTE_YOUR_API_ENDPOINT_URL_HERE".data || apiUrl = ""

/-- The `useEffect` body of `Home`: if the URL is unconfigured, mark both
location panels and stop; otherwise apply the fetch outcome — on error set
both location panels to `"Unavailable"`, on success fill them in with
`"N/A"` for each missing field. `threats` is never written. -/
def runEffect (o : FetchOutcome) (s : PageState) : PageState :=
  if apiUrlNotConfigured then
    { s with location := "API Not Configured", edgeLocation := "API Not Configured" }
  else
    match o with
    | .fetchError => { s with location := "Unavailable", edgeLocation := "Unavailable" }
    | .ok city country edge =>
      { s with
        location := (city.getD "N/A") ++ ", " ++ (country.getD "N/A")
        edgeLocation := edge.getD "N/A" }

/-- The URLs the effect fetches: exactly one request, to `apiUrl` as-is,
unless the unconfigured guard stops it. -/
def effectRequests : List String :=
  if apiUrlNotConfigured then [] else [apiUrl]

/-- What the Threats-Blocked panel of the rendered page displays. -/
def renderThreatsPanel (s : PageState) : String := s.threats

/-- The Test-Security button of `page.tsx`: static JSX with the `disabled`
attribute set and no click handler. -/
structure SecurityButton where
  label : String
  disabled : Bool
  onClick : Option Unit
deriving DecidableEq, Repr

/-- The button as rendered by `Home`. -/
def testSecurityButton : SecurityButton :=
  { label := "Test Security (Coming Soon)", disabled := true, onClick := none }

/-- Clicking a button triggers its handler only when it is enabled. -/
def clickButton (b : SecurityButton) : Option Unit :=
  if b.disabled then none else b.onClick

/-! ## Helper lemmas -/

/-- `Char.ofNat` at a valid codepoint round-trips through `toNat`. -/
theorem toNat_ofNat_valid (n : Nat) (h : n.isValidChar) : (Char.ofNat n).toNat = n := by
  rw [Char.ofNat, dif_pos h]; rfl

/-- ASCII lower-casing of a character is idempotent. -/
theorem toLower_idem (c : Char) : c.toLower.toLower = c.toLower := by
  unfold Char.toLower
  by_cases h : c.toNat ≥ 65 ∧ c.toNat ≤ 90
  · rw [if_pos h]
    have hv : Nat.isValidChar (c.toNat + 32) := Or.inl (by omega)
    have ht : (Char.ofNat (c.toNat + 32)).toNat = c.toNat + 32 := toNat_ofNat_valid _ hv
    rw [if_neg]
    rw [ht]
    omega
  · rw [if_neg h, if_neg h]

/-- Lower-casing a string is idempotent. -/
theorem lowerStr_idem (s : String) : lowerStr (lowerStr s) = lowerStr s := by
  simp [lowerStr, List.map_map, Function.comp_def, toLower_idem]

/-- Header-name normalization is idempotent. -/
theorem normalizeHeaders_idem (hs : List (String × String)) :
    normalizeHeaders (normalizeHeaders hs) = normalizeHeaders hs := by
  simp [normalizeHeaders, List.map_map, Function.comp_def, lowerStr_idem]

/-- Lookup of `k` in the normalized map misses when no header name
lower-cases to `k`. -/
theorem findHeader_normalize_eq_none (hs : List (String × String)) (k : String)
    (h : ∀ p ∈ hs, lowerStr p.1 ≠ k) :
    findHeader (normalizeHeaders hs) k = none := by
  induction hs with
  | nil => rfl
  | cons p t ih =>
    simp only [normalizeHeaders, List.map_cons, findHeader]
    rw [if_neg (h p (List.mem_cons_self p t))]
    exact ih (fun q hq => h q (List.mem_cons_of_mem p hq))

/-! ## Claim theorems -/

/-- C2: for every header map containing none of the recognized keys
(under case-insensitive comparison), LocationResolver returns the record
whose every field is the fallback sentinel `"Unknown"`. The operation is a
total function of the header map by construction, so no error is ever
raised. -/
theorem locationResolver_all_fallback (hs : List (String × String))
    (h : ∀ p ∈ hs, lowerStr p.1 ∉ recognizedKeys) :
    getVisitorLocation hs = ⟨"Unknown", "Unknown", "Unknown", "Unknown"⟩ := by
  have hk : ∀ k ∈ recognizedKeys, findHeader (normalizeHeaders hs) k = none := by
    intro k hkmem
    exact findHeader_normalize_eq_none hs k (fun p hp heq => h p hp (heq ▸ hkmem))
  have h1 := hk "cloudfront-viewer-city" (by decide)
  have h2 := hk "cloudfront-viewer-country-region" (by decide)
  have h3 := hk "cloudfront-viewer-country" (by decide)
  have h4 := hk "x-amz-cf-id" (by decide)
  simp [getVisitorLocation, getHeader, h1, h2, h3, h4]

/-- Witness for C2 at a concrete header map with no recognized key. -/
theorem locationResolver_all_fallback_check :
    (∀ p ∈ [("X-Foo", "1"), ("Host", "example.com")], lowerStr p.1 ∉ recognizedKeys) ∧
    getVisitorLocation [("X-Foo", "1"), ("Host", "example.com")]
      = ⟨"Unknown", "Unknown", "Unknown", "Unknown"⟩ :=
  ⟨by decide, locationResolver_all_fallback _ (by decide)⟩

/-- C4: LocationResolver is invariant under case changes of header names:
any two header maps with the same normalized (lower-cased-key) form — in
particular a map and its canonical-case equivalent — yield identical
extracted values. -/
theorem locationResolver_case_insensitive :
    (∀ hs hs' : List (String × String), normalizeHeaders hs' = normalizeHeaders hs →
      getVisitorLocation hs' = getVisitorLocation hs) ∧
    (∀ hs : List (String × String),
      getVisitorLocation (normalizeHeaders hs) = getVisitorLocation hs) := by
  constructor
  · intro hs hs' h
    simp [getVisitorLocation, getHeader, h]
  · intro hs
    simp [getVisitorLocation, getHeader, normalizeHeaders_idem]

/-- Witness for C4 at a concrete mixed-case header map and its
canonical-case equivalent. -/
theorem locationResolver_case_insensitive_check :
    getVisitorLocation [("CloudFront-Viewer-City", "Montreal"), ("X-AMZ-CF-ID", "a-POP1-b")]
      = getVisitorLocation [("cloudfront-viewer-city", "Montreal"), ("x-amz-cf-id", "a-POP1-b")] :=
  locationResolver_case_insensitive.1 _ _ (by decide)

/-- C6: on the documented end-to-end scenario the resolver returns
Montreal/QC/CA and extracts the edge code `YYZ50` from the second
`-`-delimited segment of the `x-amz-cf-id` trace header. -/
theorem locationResolver_montreal_scenario :
    getVisitorLocation
      [("cloudfront-viewer-city", "Montreal"), ("cloudfront-viewer-country-region", "QC"),
       ("cloudfront-viewer-country", "CA"), ("x-amz-cf-id", "abcd1234-YYZ50-xyz")]
      = ⟨"Montreal", "QC", "CA", "YYZ50"⟩ := by
  decide

/-- C1: whenever query submission fails, the poll budget is exhausted (or
the query fails) so the poll loop yields nothing, or the completed result
set is malformed, the `action=waf` route still answers with status 200,
`blockCount = 0` and the soft-fail signal set — no hard error reaches the
caller. -/
theorem threatCounter_soft_fail (hs : List (String × String)) (svc : QueryService)
    (budget : Nat)
    (h : svc.submitOk = false ∨ pollLoop svc.poll budget 0 = none ∨
         ∃ rows, pollLoop svc.poll budget 0 = some rows ∧ countOfRows rows = none) :
    apiGateway .GET [("action", "waf")] hs svc budget =
      { statusCode := 200, cors := optionsCorsHeaders, invoked := .threatCounterOp
        body := .wafBody 0 true } := by
  have htc : threatCounter svc budget = ⟨0, true⟩ := by
    rcases h with h | h | ⟨rows, h1, h2⟩
    · simp [threatCounter, h]
    · simp [threatCounter, h]
    · simp [threatCounter, h1, h2]
  simp [apiGateway, lambdaRouter, findHeader, htc]

/-- Witness for C1 with a query service that never completes, so a budget
of 3 polls is exhausted. -/
theorem threatCounter_soft_fail_check :
    (pollLoop (fun _ => PollStatus.running) 3 0 = none) ∧
    apiGateway .GET [("action", "waf")] [] ⟨true, fun _ => .running⟩ 3 =
      { statusCode := 200, cors := optionsCorsHeaders, invoked := .threatCounterOp
        body := .wafBody 0 true } :=
  ⟨rfl, threatCounter_soft_fail [] ⟨true, fun _ => .running⟩ 3 (Or.inr (Or.inl rfl))⟩

/-- C5: a successful query whose result set is empty yields
`blockCount = 0` as a normal result, with the soft-fail signal clear. -/
theorem threatCounter_empty_result_zero (svc : QueryService) (budget : Nat)
    (h1 : svc.submitOk = true) (h2 : pollLoop svc.poll budget 0 = some []) :
    threatCounter svc budget = { blockCount := 0, softFail := false } := by
  simp [threatCounter, h1, h2, countOfRows]

/-- Witness for C5 with a query service that completes immediately with an
empty result set. -/
theorem threatCounter_empty_result_zero_check :
    threatCounter ⟨true, fun _ => .complete []⟩ 3
      = { blockCount := 0, softFail := false } :=
  threatCounter_empty_result_zero ⟨true, fun _ => .complete []⟩ 3 rfl rfl

/-- A query service that completes at once with the single row
`{"count": "47"}` (the aggregate as a string). -/
def svcSingleRow47 : QueryService :=
  { submitOk := true, poll := fun _ => .complete [[("count", "47")]] }

/-- C7: a single result row carrying `count = "47"` is coerced to the
integer 47 and returned as a normal result. -/
theorem threatCounter_string_coercion :
    threatCounter svcSingleRow47 60 = { blockCount := 47, softFail := false } := by
  decide

/-- C3: every OPTIONS request — whatever the query parameters, headers or
query-service behaviour — is answered by the MOCK integration with status
200 and the fixed CORS header triple, invoking neither LocationResolver
nor ThreatCounter. -/
theorem optionsRequest_static_cors (query hs : List (String × String))
    (svc : QueryService) (budget : Nat) :
    apiGateway .OPTIONS query hs svc budget =
      { statusCode := 200
        cors := { allowHeaders := "Content-Type,X-Amz-Date,Authorization,X-Api-Key,X-Amz-Security-Token"
                  allowMethods := "GET,OPTIONS"
                  allowOrigin := "*" }
        invoked := .noResolver, body := .emptyBody } := rfl

/-- C8: the threats state starts as the placeholder `"..."`, no code path
of the effect ever writes it, the only request issued is the bare
`apiUrl` (which mentions `action=waf` nowhere), and the Threats-Blocked
panel renders exactly the threats state — so it displays the constant
placeholder on every render. -/
theorem threats_panel_constant_placeholder :
    (∀ o s, (runEffect o s).threats = s.threats) ∧
    initialPageState.threats = "..." ∧
    (∀ s, renderThreatsPanel s = s.threats) ∧
    effectRequests = [apiUrl] ∧
    containsSub apiUrl.data ("action=waf".data) = false := by
  refine ⟨?_, rfl, fun s => rfl, ?_, by decide⟩
  · intro o s
    unfold runEffect
    split
    · rfl
    · cases o <;> rfl
  · have : apiUrlNotConfigured = false := by decide
    simp [effectRequests, this]

/-- C9: the frontend's only API call fetches `apiUrl` with no query
string at all; a fetch or JSON-parse failure sets both location panels to
`"Unavailable"`; a successful response with missing fields degrades to
`"N/A"` values. -/
theorem frontend_fetch_error_handling :
    effectRequests = [apiUrl] ∧
    containsSub apiUrl.data ("?".data) = false ∧
    (∀ s, runEffect .fetchError s =
      { s with location := "Unavailable", edgeLocation := "Unavailable" }) ∧
    (∀ s, runEffect (.ok none none none) s =
      { s with location := "N/A, N/A", edgeLocation := "N/A" }) := by
  have hcfg : apiUrlNotConfigured = false := by decide
  refine ⟨by simp [effectRequests, hcfg], by decide, ?_, ?_⟩
  · intro s
    simp [runEffect, hcfg]
  · intro s
    simp [runEffect, hcfg]

/-- C10: the Test-Security button is rendered with the `disabled`
attribute set and no click handler, so clicking it can never trigger a
security-test request. -/
theorem testSecurityButton_always_disabled :
    testSecurityButton.disabled = true ∧ testSecurityButton.onClick = none ∧
    clickButton testSecurityButton = none := by
  refine ⟨rfl, rfl, rfl⟩

end AetherDrone
